import Mathlib

/-!
Shallow embedding of the `netsem` crate (IP / port / socket-address
classification and validation) together with proofs about the
specification's claims.

Sources embedded:
  * `src/ip.rs`    — `IpClass`, `parse_ip`, `classify_ip`, `is_valid_ip_literal`
  * `src/port.rs`  — `PortClass`, `validate_port`, `validate_port_or_zero`,
                     `classify_port`
  * `src/socket.rs`— `validate_socket_addr`
  * `src/error.rs` — `NetSemError`
  * the Rust standard library address parser (`core::net::parser`) and the
    `Ipv4Addr`/`Ipv6Addr` classification predicates that the crate calls.

Machine integers are modelled as `Nat`: IPv4 octets are `Nat` values that a
well-formed address keeps below 256, IPv6 segments below 65536, ports below
65536.  The parser enforces those ranges itself exactly the way the Rust
parser's checked arithmetic does, so parsed values are always in range.
-/

namespace Netsem

/-- An IPv4 address: four octets (`std::net::Ipv4Addr`).  Octets of a
well-formed address are below 256. -/
structure Ipv4Addr where
  o0 : Nat
  o1 : Nat
  o2 : Nat
  o3 : Nat
deriving DecidableEq, Repr

/-- An IPv6 address: eight 16-bit segments (`std::net::Ipv6Addr`,
viewed through `segments()` as the crate views it). -/
structure Ipv6Addr where
  s0 : Nat
  s1 : Nat
  s2 : Nat
  s3 : Nat
  s4 : Nat
  s5 : Nat
  s6 : Nat
  s7 : Nat
deriving DecidableEq, Repr

/-- `std::net::IpAddr`: a tagged union of IPv4 and IPv6. -/
inductive IpAddr where
  | V4 (a : Ipv4Addr)
  | V6 (a : Ipv6Addr)
deriving DecidableEq, Repr

/-- Well-formedness of the numeric ranges: IPv4 octets are 8-bit values,
IPv6 segments 16-bit values. -/
def IpAddr.Valid : IpAddr → Prop
  | .V4 a => a.o0 < 256 ∧ a.o1 < 256 ∧ a.o2 < 256 ∧ a.o3 < 256
  | .V6 a => a.s0 < 65536 ∧ a.s1 < 65536 ∧ a.s2 < 65536 ∧ a.s3 < 65536 ∧
             a.s4 < 65536 ∧ a.s5 < 65536 ∧ a.s6 < 65536 ∧ a.s7 < 65536

instance (ip : IpAddr) : Decidable ip.Valid := by
  cases ip <;> (unfold IpAddr.Valid) <;> infer_instance

/-- `IpClass` from `src/ip.rs`. -/
inductive IpClass where
  | Loopback
  | Private
  | LinkLocal
  | Global
  | Multicast
  | Unspecified
  | Broadcast
  | SharedAddress
  | Benchmarking
  | Documentation
deriving DecidableEq, Repr

/-- `PortClass` from `src/port.rs`. -/
inductive PortClass where
  | System
  | User
  | Dynamic
deriving DecidableEq, Repr

/-- `NetSemError` from `src/error.rs`.  The `BindFailed`/`ConnectFailed`
variants carry an OS `io::Error` source in Rust; that field is not
representable purely and none of the embedded functions produce those
variants, so only the address string is kept. -/
inductive NetSemError where
  | InvalidIp (s : String)
  | InvalidSocketAddr (s : String)
  | InvalidPort (p : Nat)
  | BindFailed (addr : String)
  | ConnectFailed (addr : String)
deriving DecidableEq, Repr

/-! ### Rust standard-library classification predicates

Each predicate is translated from the Rust standard library implementation
(`core::net::ip_addr`), which is what `classify_ip` calls. -/

/-- `Ipv4Addr::is_loopback`: `octets()[0] == 127`. -/
def Ipv4Addr.is_loopback (a : Ipv4Addr) : Bool :=
  a.o0 == 127

/-- `Ipv4Addr::is_unspecified`: the address is `0.0.0.0`. -/
def Ipv4Addr.is_unspecified (a : Ipv4Addr) : Bool :=
  a.o0 == 0 && a.o1 == 0 && a.o2 == 0 && a.o3 == 0

/-- `Ipv4Addr::is_multicast`: `octets()[0] >= 224 && octets()[0] <= 239`. -/
def Ipv4Addr.is_multicast (a : Ipv4Addr) : Bool :=
  224 ≤ a.o0 && a.o0 ≤ 239

/-- `Ipv4Addr::is_broadcast`: the address is `255.255.255.255`. -/
def Ipv4Addr.is_broadcast (a : Ipv4Addr) : Bool :=
  a.o0 == 255 && a.o1 == 255 && a.o2 == 255 && a.o3 == 255

/-- `Ipv4Addr::is_link_local`: `169.254.0.0/16`. -/
def Ipv4Addr.is_link_local (a : Ipv4Addr) : Bool :=
  a.o0 == 169 && a.o1 == 254

/-- `Ipv4Addr::is_documentation`: `192.0.2.0/24`, `198.51.100.0/24`,
`203.0.113.0/24`. -/
def Ipv4Addr.is_documentation (a : Ipv4Addr) : Bool :=
  (a.o0 == 192 && a.o1 == 0 && a.o2 == 2) ||
  (a.o0 == 198 && a.o1 == 51 && a.o2 == 100) ||
  (a.o0 == 203 && a.o1 == 0 && a.o2 == 113)

/-- `Ipv4Addr::is_private`: `10.0.0.0/8`, `172.16.0.0/12`, `192.168.0.0/16`. -/
def Ipv4Addr.is_private (a : Ipv4Addr) : Bool :=
  (a.o0 == 10) ||
  (a.o0 == 172 && 16 ≤ a.o1 && a.o1 ≤ 31) ||
  (a.o0 == 192 && a.o1 == 168)

/-- `Ipv6Addr::is_loopback`: the address is exactly `::1`. -/
def Ipv6Addr.is_loopback (a : Ipv6Addr) : Bool :=
  a.s0 == 0 && a.s1 == 0 && a.s2 == 0 && a.s3 == 0 &&
  a.s4 == 0 && a.s5 == 0 && a.s6 == 0 && a.s7 == 1

/-- `Ipv6Addr::is_unspecified`: the address is exactly `::`. -/
def Ipv6Addr.is_unspecified (a : Ipv6Addr) : Bool :=
  a.s0 == 0 && a.s1 == 0 && a.s2 == 0 && a.s3 == 0 &&
  a.s4 == 0 && a.s5 == 0 && a.s6 == 0 && a.s7 == 0

/-- `Ipv6Addr::is_multicast`: `segments()[0] & 0xff00 == 0xff00`. -/
def Ipv6Addr.is_multicast (a : Ipv6Addr) : Bool :=
  a.s0 &&& 0xff00 == 0xff00

/-- `IpAddr::is_loopback`: delegates to the family-specific predicate. -/
def IpAddr.is_loopback : IpAddr → Bool
  | .V4 a => a.is_loopback
  | .V6 a => a.is_loopback

/-- `IpAddr::is_unspecified`: delegates to the family-specific predicate. -/
def IpAddr.is_unspecified : IpAddr → Bool
  | .V4 a => a.is_unspecified
  | .V6 a => a.is_unspecified

/-- `IpAddr::is_multicast`: delegates to the family-specific predicate. -/
def IpAddr.is_multicast : IpAddr → Bool
  | .V4 a => a.is_multicast
  | .V6 a => a.is_multicast

/-! ### `classify_ip` (src/ip.rs, lines 56–118) -/

/-- `classify_ip` from `src/ip.rs`, translated statement by statement:
the three family-independent checks first, then the family-specific
chain of early returns, then the `IpClass::Global` fallback. -/
def classify_ip (ip : IpAddr) : IpClass :=
  if ip.is_loopback then IpClass.Loopback
  else if ip.is_unspecified then IpClass.Unspecified
  else if ip.is_multicast then IpClass.Multicast
  else
    match ip with
    | .V4 ipv4 =>
      if ipv4.is_broadcast then IpClass.Broadcast
      else if ipv4.is_link_local then IpClass.LinkLocal
      else if ipv4.is_documentation then IpClass.Documentation
      -- Shared address space / CGNAT: 100.64.0.0/10 (RFC 6598)
      else if ipv4.o0 == 100 && (ipv4.o1 &&& 0xc0) == 64 then IpClass.SharedAddress
      -- Benchmarking: 198.18.0.0/15 (RFC 2544)
      else if ipv4.o0 == 198 && (ipv4.o1 &&& 0xfe) == 18 then IpClass.Benchmarking
      else if ipv4.is_private then IpClass.Private
      else IpClass.Global
    | .V6 ipv6 =>
      -- Manual Link-Local check for stability: fe80::/10
      if (ipv6.s0 &&& 0xffc0) == 0xfe80 then IpClass.LinkLocal
      -- Documentation: 2001:db8::/32
      else if ipv6.s0 == 0x2001 && ipv6.s1 == 0x0db8 then IpClass.Documentation
      -- Private (ULA): fc00::/7
      else if (ipv6.s0 &&& 0xfe00) == 0xfc00 then IpClass.Private
      else IpClass.Global

/-! ### Ports (src/port.rs) -/

/-- `validate_port` from `src/port.rs`: rejects port 0 with
`InvalidPort(0)`, accepts everything else. -/
def validate_port (p : Nat) : Except NetSemError Unit :=
  if p == 0 then Except.error (NetSemError.InvalidPort 0)
  else Except.ok ()

/-- `validate_port_or_zero` from `src/port.rs`: always `Ok(())`. -/
def validate_port_or_zero (p : Nat) : Except NetSemError Unit :=
  let _ := p
  Except.ok ()

/-- `classify_port` from `src/port.rs`. -/
def classify_port (p : Nat) : PortClass :=
  if p < 1024 then PortClass.System
  else if p < 49152 then PortClass.User
  else PortClass.Dynamic

/-! ### Arithmetic bridge between the code's bitmask tests and the
specification's top-bits / CIDR descriptions -/

/-- A mask keeping the bits `b ≤ i < a + b` applied to a value below
`2 ^ (a + b)` is division followed by multiplication by `2 ^ b`. -/
theorem and_high_mask (a : Nat) : ∀ b x : Nat, x < 2 ^ (a + b) →
    x &&& (2 ^ (a + b) - 2 ^ b) = 2 ^ b * (x / 2 ^ b) := by
  intro b
  induction b with
  | zero =>
    intro x hx
    simpa [Nat.and_pow_two_sub_one_eq_mod] using Nat.mod_eq_of_lt hx
  | succ b ih =>
    intro x hx
    have hA : 2 ^ (a + (b + 1)) = 2 * 2 ^ (a + b) := by
      rw [show a + (b + 1) = (a + b) + 1 by omega, pow_succ]
      ring
    have hB : 2 ^ (b + 1) = 2 * 2 ^ b := by
      rw [pow_succ]; ring
    have hmask : 2 ^ (a + (b + 1)) - 2 ^ (b + 1) = 2 * (2 ^ (a + b) - 2 ^ b) := by
      omega
    have hmod : (x &&& (2 * (2 ^ (a + b) - 2 ^ b))) % 2 = 0 := by
      rcases Nat.mod_two_eq_zero_or_one (x &&& (2 * (2 ^ (a + b) - 2 ^ b))) with h | h
      · exact h
      · exact absurd ((Nat.and_mod_two_eq_one).mp h).2 (by omega)
    have hdiv : (x &&& (2 * (2 ^ (a + b) - 2 ^ b))) / 2
        = (x / 2) &&& (2 ^ (a + b) - 2 ^ b) := by
      rw [Nat.and_div_two]
      congr 1
      omega
    have hx2 : x / 2 < 2 ^ (a + b) := by omega
    have hih := ih (x / 2) hx2
    have hxdiv : x / 2 / 2 ^ b = x / 2 ^ (b + 1) := by
      rw [Nat.div_div_eq_div_mul]
      congr 1
      omega
    calc x &&& (2 ^ (a + (b + 1)) - 2 ^ (b + 1))
        = x &&& (2 * (2 ^ (a + b) - 2 ^ b)) := by rw [hmask]
      _ = 2 * ((x &&& (2 * (2 ^ (a + b) - 2 ^ b))) / 2)
            + (x &&& (2 * (2 ^ (a + b) - 2 ^ b))) % 2 := by omega
      _ = 2 * ((x / 2) &&& (2 ^ (a + b) - 2 ^ b)) := by
            rw [hdiv, hmod, Nat.add_zero]
      _ = 2 * (2 ^ b * (x / 2 / 2 ^ b)) := by rw [hih]
      _ = 2 ^ (b + 1) * (x / 2 ^ (b + 1)) := by rw [hxdiv, hB]; ring

/-- `x & 0xffc0` on a 16-bit value keeps the top 10 bits. -/
theorem and_ffc0 (x : Nat) (hx : x < 65536) : x &&& 0xffc0 = 64 * (x / 64) := by
  have h := and_high_mask 10 6 x (by norm_num; omega)
  norm_num at h
  exact h

/-- `x & 0xfe00` on a 16-bit value keeps the top 7 bits. -/
theorem and_fe00 (x : Nat) (hx : x < 65536) : x &&& 0xfe00 = 512 * (x / 512) := by
  have h := and_high_mask 7 9 x (by norm_num; omega)
  norm_num at h
  exact h

/-- `x & 0xff00` on a 16-bit value keeps the top 8 bits. -/
theorem and_ff00 (x : Nat) (hx : x < 65536) : x &&& 0xff00 = 256 * (x / 256) := by
  have h := and_high_mask 8 8 x (by norm_num; omega)
  norm_num at h
  exact h

/-- `x & 0xc0` on an 8-bit value keeps the top 2 bits. -/
theorem and_c0 (x : Nat) (hx : x < 256) : x &&& 0xc0 = 64 * (x / 64) := by
  have h := and_high_mask 2 6 x (by norm_num; omega)
  norm_num at h
  exact h

/-- `x & 0xfe` on an 8-bit value clears the low bit. -/
theorem and_fe (x : Nat) (hx : x < 256) : x &&& 0xfe = 2 * (x / 2) := by
  have h := and_high_mask 7 1 x (by norm_num; omega)
  norm_num at h
  exact h

/-- Right shift by 4 is division by 16. -/
theorem shiftRight_four (x : Nat) : x >>> 4 = x / 16 := by
  rw [Nat.shiftRight_eq_div_pow]

/-- Right shift by 6 is division by 64. -/
theorem shiftRight_six (x : Nat) : x >>> 6 = x / 64 := by
  rw [Nat.shiftRight_eq_div_pow]

/-- Right shift by 8 is division by 256. -/
theorem shiftRight_eight (x : Nat) : x >>> 8 = x / 256 := by
  rw [Nat.shiftRight_eq_div_pow]

/-- Right shift by 9 is division by 512. -/
theorem shiftRight_nine (x : Nat) : x >>> 9 = x / 512 := by
  rw [Nat.shiftRight_eq_div_pow]

/-! ### Claim-side predicates

These definitions follow the specification's wording of the decision
rules (CIDR ranges and top-bits tests), to be compared against the
translation of `classify_ip` above. -/

/-- Spec wording: Loopback is IPv4 `127.0.0.0/8` or IPv6 `::1`. -/
def spec_loopback : IpAddr → Prop
  | .V4 a => a.o0 = 127
  | .V6 a => a = ⟨0, 0, 0, 0, 0, 0, 0, 1⟩

/-- Spec wording: Unspecified is `0.0.0.0` or `::`. -/
def spec_unspecified : IpAddr → Prop
  | .V4 a => a = ⟨0, 0, 0, 0⟩
  | .V6 a => a = ⟨0, 0, 0, 0, 0, 0, 0, 0⟩

/-- Spec wording: Multicast is IPv4 `224.0.0.0/4` (top four bits `1110`)
or IPv6 `ff00::/8` (top eight bits of the first segment all set). -/
def spec_multicast : IpAddr → Prop
  | .V4 a => a.o0 >>> 4 = 0b1110
  | .V6 a => a.s0 >>> 8 = 0xff

instance (ip : IpAddr) : Decidable (spec_loopback ip) := by
  cases ip <;> (unfold spec_loopback) <;> infer_instance

instance (ip : IpAddr) : Decidable (spec_unspecified ip) := by
  cases ip <;> (unfold spec_unspecified) <;> infer_instance

instance (ip : IpAddr) : Decidable (spec_multicast ip) := by
  cases ip <;> (unfold spec_multicast) <;> infer_instance

/-- Spec wording of the IPv4-specific chain applied after the three
family-independent checks (claim C2): Broadcast, then Link-local, then
Documentation, then SharedAddress (first octet 100, second octet's top
two bits equal to 1), then Benchmarking (first octet 198, second octet
in 18 or 19), then Private, else Global. -/
def spec_classify_v4 (a : Ipv4Addr) : IpClass :=
  if a.o0 = 255 ∧ a.o1 = 255 ∧ a.o2 = 255 ∧ a.o3 = 255 then IpClass.Broadcast
  else if a.o0 = 169 ∧ a.o1 = 254 then IpClass.LinkLocal
  else if (a.o0 = 192 ∧ a.o1 = 0 ∧ a.o2 = 2) ∨ (a.o0 = 198 ∧ a.o1 = 51 ∧ a.o2 = 100) ∨
          (a.o0 = 203 ∧ a.o1 = 0 ∧ a.o2 = 113) then IpClass.Documentation
  else if a.o0 = 100 ∧ a.o1 >>> 6 = 1 then IpClass.SharedAddress
  else if a.o0 = 198 ∧ (a.o1 = 18 ∨ a.o1 = 19) then IpClass.Benchmarking
  else if a.o0 = 10 ∨ (a.o0 = 172 ∧ 16 ≤ a.o1 ∧ a.o1 ≤ 31) ∨ (a.o0 = 192 ∧ a.o1 = 168)
    then IpClass.Private
  else IpClass.Global

/-- Spec wording of the IPv6-specific chain applied after the three
family-independent checks (claim C3): Link-local when the top 10 bits of
the first segment are `0b1111111010`, then Documentation when the first
two segments are `2001:db8`, then Private when the top 7 bits of the
first segment are `0b1111110`, else Global. -/
def spec_classify_v6 (a : Ipv6Addr) : IpClass :=
  if a.s0 >>> 6 = 0b1111111010 then IpClass.LinkLocal
  else if a.s0 = 0x2001 ∧ a.s1 = 0x0db8 then IpClass.Documentation
  else if a.s0 >>> 9 = 0b1111110 then IpClass.Private
  else IpClass.Global

/-! ### Division-to-range conversions (helper lemmas) -/

/-- Range form of the CGNAT second-octet test. -/
theorem mul64_div64_eq_64_iff (x : Nat) : 64 * (x / 64) = 64 ↔ 64 ≤ x ∧ x < 128 := by
  omega

/-- Range form of the claim-side CGNAT top-two-bits test. -/
theorem div64_eq_one_iff (x : Nat) : x / 64 = 1 ↔ 64 ≤ x ∧ x < 128 := by
  omega

/-- Range form of the Benchmarking second-octet test. -/
theorem mul2_div2_eq_18_iff (x : Nat) : 2 * (x / 2) = 18 ↔ x = 18 ∨ x = 19 := by
  omega

/-- Range form of the claim-side IPv4 multicast top-four-bits test. -/
theorem div16_eq_14_iff (x : Nat) : x / 16 = 14 ↔ 224 ≤ x ∧ x ≤ 239 := by
  omega

/-- Range form of the IPv6 multicast mask test. -/
theorem mul256_div256_eq_65280_iff (x : Nat) :
    256 * (x / 256) = 65280 ↔ 65280 ≤ x ∧ x < 65536 := by
  omega

/-- Range form of the claim-side IPv6 multicast top-byte test. -/
theorem div256_eq_255_iff (x : Nat) : x / 256 = 255 ↔ 65280 ≤ x ∧ x < 65536 := by
  omega

/-- Range form of the IPv6 link-local mask test. -/
theorem mul64_div64_eq_65152_iff (x : Nat) :
    64 * (x / 64) = 65152 ↔ 65152 ≤ x ∧ x < 65216 := by
  omega

/-- Range form of the claim-side IPv6 link-local top-ten-bits test. -/
theorem div64_eq_1018_iff (x : Nat) : x / 64 = 1018 ↔ 65152 ≤ x ∧ x < 65216 := by
  omega

/-- Range form of the IPv6 unique-local mask test. -/
theorem mul512_div512_eq_64512_iff (x : Nat) :
    512 * (x / 512) = 64512 ↔ 64512 ≤ x ∧ x < 65024 := by
  omega

/-- Range form of the claim-side IPv6 unique-local top-seven-bits test. -/
theorem div512_eq_126_iff (x : Nat) : x / 512 = 126 ↔ 64512 ≤ x ∧ x < 65024 := by
  omega

/-! ### Normal forms of `classify_ip` (helper lemmas) -/

/-- Helper: `classify_ip` on an IPv4 value, with every predicate the code
consults written out arithmetically, in the code's evaluation order. -/
theorem classify_ip_v4_eq (o0 o1 o2 o3 : Nat) (h1 : o1 < 256) :
    classify_ip (.V4 ⟨o0, o1, o2, o3⟩) =
      if o0 = 127 then IpClass.Loopback
      else if o0 = 0 ∧ o1 = 0 ∧ o2 = 0 ∧ o3 = 0 then IpClass.Unspecified
      else if 224 ≤ o0 ∧ o0 ≤ 239 then IpClass.Multicast
      else if o0 = 255 ∧ o1 = 255 ∧ o2 = 255 ∧ o3 = 255 then IpClass.Broadcast
      else if o0 = 169 ∧ o1 = 254 then IpClass.LinkLocal
      else if (o0 = 192 ∧ o1 = 0 ∧ o2 = 2) ∨ (o0 = 198 ∧ o1 = 51 ∧ o2 = 100) ∨
              (o0 = 203 ∧ o1 = 0 ∧ o2 = 113) then IpClass.Documentation
      else if o0 = 100 ∧ 64 ≤ o1 ∧ o1 < 128 then IpClass.SharedAddress
      else if o0 = 198 ∧ (o1 = 18 ∨ o1 = 19) then IpClass.Benchmarking
      else if o0 = 10 ∨ (o0 = 172 ∧ 16 ≤ o1 ∧ o1 ≤ 31) ∨ (o0 = 192 ∧ o1 = 168)
        then IpClass.Private
      else IpClass.Global := by
  simp only [classify_ip, IpAddr.is_loopback, IpAddr.is_unspecified,
    IpAddr.is_multicast, Ipv4Addr.is_loopback, Ipv4Addr.is_unspecified,
    Ipv4Addr.is_multicast, Ipv4Addr.is_broadcast, Ipv4Addr.is_link_local,
    Ipv4Addr.is_documentation, Ipv4Addr.is_private]
  rw [and_c0 o1 h1, and_fe o1 h1]
  simp only [Bool.and_eq_true, Bool.or_eq_true, beq_iff_eq, decide_eq_true_eq,
    and_assoc, or_assoc, mul64_div64_eq_64_iff, mul2_div2_eq_18_iff]

/-- Helper: `classify_ip` on an IPv6 value, with every predicate the code
consults written out arithmetically, in the code's evaluation order. -/
theorem classify_ip_v6_eq (s0 s1 s2 s3 s4 s5 s6 s7 : Nat) (h0 : s0 < 65536) :
    classify_ip (.V6 ⟨s0, s1, s2, s3, s4, s5, s6, s7⟩) =
      if s0 = 0 ∧ s1 = 0 ∧ s2 = 0 ∧ s3 = 0 ∧ s4 = 0 ∧ s5 = 0 ∧ s6 = 0 ∧ s7 = 1
        then IpClass.Loopback
      else if s0 = 0 ∧ s1 = 0 ∧ s2 = 0 ∧ s3 = 0 ∧ s4 = 0 ∧ s5 = 0 ∧ s6 = 0 ∧ s7 = 0
        then IpClass.Unspecified
      else if 65280 ≤ s0 ∧ s0 < 65536 then IpClass.Multicast
      else if 65152 ≤ s0 ∧ s0 < 65216 then IpClass.LinkLocal
      else if s0 = 8193 ∧ s1 = 3512 then IpClass.Documentation
      else if 64512 ≤ s0 ∧ s0 < 65024 then IpClass.Private
      else IpClass.Global := by
  simp only [classify_ip, IpAddr.is_loopback, IpAddr.is_unspecified,
    IpAddr.is_multicast, Ipv6Addr.is_loopback, Ipv6Addr.is_unspecified,
    Ipv6Addr.is_multicast]
  rw [and_ff00 s0 h0, and_ffc0 s0 h0, and_fe00 s0 h0]
  simp only [Bool.and_eq_true, Bool.or_eq_true, beq_iff_eq, decide_eq_true_eq,
    and_assoc, mul256_div256_eq_65280_iff, mul64_div64_eq_65152_iff,
    mul512_div512_eq_64512_iff]

/-! ### Claim theorems -/

/-- C1: for every valid address, the family-independent checks come first
and in this order: Loopback (IPv4 `127.0.0.0/8`, IPv6 `::1`), then
Unspecified (`0.0.0.0`, `::`), then Multicast (IPv4 `224.0.0.0/4`, IPv6
`ff00::/8`), before any family-specific check, first match winning. -/
theorem classify_ip_first_three (ip : IpAddr) (h : ip.Valid) :
    (classify_ip ip = IpClass.Loopback ↔ spec_loopback ip) ∧
    (classify_ip ip = IpClass.Unspecified ↔
      ¬ spec_loopback ip ∧ spec_unspecified ip) ∧
    (classify_ip ip = IpClass.Multicast ↔
      ¬ spec_loopback ip ∧ ¬ spec_unspecified ip ∧ spec_multicast ip) := by
  cases ip with
  | V4 a =>
    obtain ⟨h0, h1, h2, h3⟩ := h
    obtain ⟨o0, o1, o2, o3⟩ := a
    dsimp only at h0 h1 h2 h3
    rw [classify_ip_v4_eq o0 o1 o2 o3 h1]
    simp only [spec_loopback, spec_unspecified, spec_multicast, shiftRight_four,
      Ipv4Addr.mk.injEq, div16_eq_14_iff, ite_eq_iff, reduceCtorEq, and_true,
      and_false, false_or, or_false]
  | V6 a =>
    obtain ⟨h0, h1, h2, h3, h4, h5, h6, h7⟩ := h
    obtain ⟨s0, s1, s2, s3, s4, s5, s6, s7⟩ := a
    dsimp only at h0 h1 h2 h3 h4 h5 h6 h7
    rw [classify_ip_v6_eq s0 s1 s2 s3 s4 s5 s6 s7 h0]
    simp only [spec_loopback, spec_unspecified, spec_multicast, shiftRight_eight,
      Ipv6Addr.mk.injEq, div256_eq_255_iff, ite_eq_iff, reduceCtorEq, and_true,
      and_false, false_or, or_false]

/-- Witness for C1 at the concrete address `127.0.0.1`. -/
theorem classify_ip_first_three_witness :
    (IpAddr.V4 ⟨127, 0, 0, 1⟩).Valid ∧
      (classify_ip (IpAddr.V4 ⟨127, 0, 0, 1⟩) = IpClass.Loopback ↔
        spec_loopback (IpAddr.V4 ⟨127, 0, 0, 1⟩)) :=
  ⟨by decide, (classify_ip_first_three (IpAddr.V4 ⟨127, 0, 0, 1⟩) (by decide)).1⟩

/-- C2: on a valid IPv4 address on which none of the three
family-independent rules fired, `classify_ip` applies the IPv4 chain
Broadcast, Link-local, Documentation, SharedAddress, Benchmarking,
Private in this order, first match winning, else Global. -/
theorem classify_ip_v4_chain (a : Ipv4Addr) (h : (IpAddr.V4 a).Valid)
    (hlb : ¬ spec_loopback (IpAddr.V4 a))
    (hun : ¬ spec_unspecified (IpAddr.V4 a))
    (hmc : ¬ spec_multicast (IpAddr.V4 a)) :
    classify_ip (IpAddr.V4 a) = spec_classify_v4 a := by
  obtain ⟨h0, h1, h2, h3⟩ := h
  obtain ⟨o0, o1, o2, o3⟩ := a
  dsimp only at h0 h1 h2 h3
  simp only [spec_loopback, spec_unspecified, spec_multicast, shiftRight_four,
    Ipv4Addr.mk.injEq, div16_eq_14_iff] at hlb hun hmc
  simp only [spec_classify_v4, shiftRight_six, div64_eq_one_iff]
  rw [classify_ip_v4_eq o0 o1 o2 o3 h1]
  split_ifs <;> first | rfl | tauto

/-- Witness for C2 at the concrete CGNAT address `100.64.0.1`. -/
theorem classify_ip_v4_chain_witness :
    ((IpAddr.V4 ⟨100, 64, 0, 1⟩).Valid ∧
      ¬ spec_loopback (IpAddr.V4 ⟨100, 64, 0, 1⟩) ∧
      ¬ spec_unspecified (IpAddr.V4 ⟨100, 64, 0, 1⟩) ∧
      ¬ spec_multicast (IpAddr.V4 ⟨100, 64, 0, 1⟩)) ∧
    classify_ip (IpAddr.V4 ⟨100, 64, 0, 1⟩) = spec_classify_v4 ⟨100, 64, 0, 1⟩ :=
  ⟨⟨by decide, by decide, by decide, by decide⟩,
    classify_ip_v4_chain ⟨100, 64, 0, 1⟩ (by decide) (by decide) (by decide) (by decide)⟩

/-- C3: on a valid IPv6 address on which none of the three
family-independent rules fired, `classify_ip` applies the IPv6 chain
Link-local (`fe80::/10`), Documentation (`2001:db8::/32`), Private
(`fc00::/7`) in this order, first match winning, else Global. -/
theorem classify_ip_v6_chain (a : Ipv6Addr) (h : (IpAddr.V6 a).Valid)
    (hlb : ¬ spec_loopback (IpAddr.V6 a))
    (hun : ¬ spec_unspecified (IpAddr.V6 a))
    (hmc : ¬ spec_multicast (IpAddr.V6 a)) :
    classify_ip (IpAddr.V6 a) = spec_classify_v6 a := by
  obtain ⟨h0, h1, h2, h3, h4, h5, h6, h7⟩ := h
  obtain ⟨s0, s1, s2, s3, s4, s5, s6, s7⟩ := a
  dsimp only at h0 h1 h2 h3 h4 h5 h6 h7
  simp only [spec_loopback, spec_unspecified, spec_multicast, shiftRight_eight,
    Ipv6Addr.mk.injEq, div256_eq_255_iff] at hlb hun hmc
  simp only [spec_classify_v6, shiftRight_six, shiftRight_nine, div64_eq_1018_iff,
    div512_eq_126_iff]
  rw [classify_ip_v6_eq s0 s1 s2 s3 s4 s5 s6 s7 h0]
  split_ifs <;> first | rfl | tauto

/-- Witness for C3 at the concrete documentation address `2001:db8::1`. -/
theorem classify_ip_v6_chain_witness :
    ((IpAddr.V6 ⟨8193, 3512, 0, 0, 0, 0, 0, 1⟩).Valid ∧
      ¬ spec_loopback (IpAddr.V6 ⟨8193, 3512, 0, 0, 0, 0, 0, 1⟩) ∧
      ¬ spec_unspecified (IpAddr.V6 ⟨8193, 3512, 0, 0, 0, 0, 0, 1⟩) ∧
      ¬ spec_multicast (IpAddr.V6 ⟨8193, 3512, 0, 0, 0, 0, 0, 1⟩)) ∧
    classify_ip (IpAddr.V6 ⟨8193, 3512, 0, 0, 0, 0, 0, 1⟩) =
      spec_classify_v6 ⟨8193, 3512, 0, 0, 0, 0, 0, 1⟩ :=
  ⟨⟨by decide, by decide, by decide, by decide⟩,
    classify_ip_v6_chain ⟨8193, 3512, 0, 0, 0, 0, 0, 1⟩
      (by decide) (by decide) (by decide) (by decide)⟩

/-- C4: `classify_port` realizes the IANA partition: System exactly on
[0,1023], User exactly on [1024,49151], Dynamic exactly on [49152,65535];
the categories are pairwise disjoint and jointly exhaustive, and the
boundary ports classify as the claim states. -/
theorem classify_port_partition (p : Nat) (hp : p < 65536) :
    (classify_port p = PortClass.System ↔ p ≤ 1023) ∧
    (classify_port p = PortClass.User ↔ 1024 ≤ p ∧ p ≤ 49151) ∧
    (classify_port p = PortClass.Dynamic ↔ 49152 ≤ p ∧ p ≤ 65535) ∧
    classify_port 1023 = PortClass.System ∧
    classify_port 1024 = PortClass.User ∧
    classify_port 49151 = PortClass.User ∧
    classify_port 49152 = PortClass.Dynamic := by
  refine ⟨?_, ?_, ?_, by decide, by decide, by decide, by decide⟩ <;>
    simp only [classify_port, ite_eq_iff, reduceCtorEq, and_true, and_false,
      false_or, or_false] <;>
    omega

/-- Witness for C4 at the boundary port 1023. -/
theorem classify_port_partition_witness :
    1023 < 65536 ∧ (classify_port 1023 = PortClass.System ↔ 1023 ≤ 1023) :=
  ⟨by decide, (classify_port_partition 1023 (by decide)).1⟩

/-- C5: `validate_port` rejects exactly port 0, with error
`InvalidPort(0)`, and accepts every port from 1 to 65535;
`validate_port_or_zero` accepts every 16-bit value including 0. -/
theorem validate_port_spec :
    validate_port 0 = Except.error (NetSemError.InvalidPort 0) ∧
    (∀ p : Nat, 1 ≤ p → p ≤ 65535 → validate_port p = Except.ok ()) ∧
    (∀ p : Nat, p < 65536 → validate_port_or_zero p = Except.ok ()) := by
  refine ⟨rfl, ?_, ?_⟩
  · intro p hp1 hp2
    unfold validate_port
    rw [if_neg]
    simp only [beq_iff_eq]
    omega
  · intro p _
    rfl

/-- Witness for C5 at ports 0 and 80. -/
theorem validate_port_spec_witness :
    validate_port 0 = Except.error (NetSemError.InvalidPort 0) ∧
    (1 ≤ 80 ∧ 80 ≤ 65535 ∧ validate_port 80 = Except.ok ()) ∧
    (0 < 65536 ∧ validate_port_or_zero 0 = Except.ok ()) :=
  ⟨validate_port_spec.1,
   ⟨by decide, by decide, validate_port_spec.2.1 80 (by decide) (by decide)⟩,
   ⟨by decide, validate_port_spec.2.2 0 (by decide)⟩⟩

/-- C6: `classify_ip` is a total function on the `IpAddr` type (it is
defined by a terminating Lean function, hence defined everywhere and
never failing), it is deterministic (two runs on equal inputs agree),
and every address yields exactly one category. -/
theorem classify_ip_total_deterministic :
    (∀ ip1 ip2 : IpAddr, ip1 = ip2 → classify_ip ip1 = classify_ip ip2) ∧
    (∀ ip : IpAddr, ∃! c : IpClass, classify_ip ip = c) := by
  constructor
  · intro ip1 ip2 h
    rw [h]
  · intro ip
    exact ⟨classify_ip ip, rfl, fun c hc => hc.symm⟩

/-- Witness for C6 at the concrete address `8.8.8.8`. -/
theorem classify_ip_total_deterministic_witness :
    classify_ip (IpAddr.V4 ⟨8, 8, 8, 8⟩) = classify_ip (IpAddr.V4 ⟨8, 8, 8, 8⟩) ∧
    ∃! c : IpClass, classify_ip (IpAddr.V4 ⟨8, 8, 8, 8⟩) = c :=
  ⟨classify_ip_total_deterministic.1 (IpAddr.V4 ⟨8, 8, 8, 8⟩)
      (IpAddr.V4 ⟨8, 8, 8, 8⟩) rfl,
   classify_ip_total_deterministic.2 (IpAddr.V4 ⟨8, 8, 8, 8⟩)⟩

/-- The segments of the IPv4-mapped IPv6 address `::ffff:a.b.c.d`, whose
seventh and eighth 16-bit segments hold the four IPv4 octets. -/
def ipv4_mapped (hi lo : Nat) : Ipv6Addr :=
  ⟨0, 0, 0, 0, 0, 0xffff, hi, lo⟩

/-- C7: no IPv4-mapped normalization: every `::ffff:a.b.c.d` address goes
through the IPv6 rule chain only, where none of the IPv6 rules can match
it, so it classifies as Global; in particular `::ffff:127.0.0.1` is not
caught by the IPv4 loopback rule, although `127.0.0.1` itself is. -/
theorem classify_ip_no_mapped_normalization :
    (∀ hi lo : Nat, classify_ip (IpAddr.V6 (ipv4_mapped hi lo)) = IpClass.Global) ∧
    classify_ip (IpAddr.V4 ⟨127, 0, 0, 1⟩) = IpClass.Loopback ∧
    classify_ip (IpAddr.V6 (ipv4_mapped 0x7f00 0x0001)) = IpClass.Global := by
  refine ⟨?_, by decide, by decide⟩
  intro hi lo
  unfold ipv4_mapped
  simp only [classify_ip, IpAddr.is_loopback, IpAddr.is_unspecified,
    IpAddr.is_multicast, Ipv6Addr.is_loopback, Ipv6Addr.is_unspecified,
    Ipv6Addr.is_multicast]
  norm_num

/-! ### The textual address parser

`parse_ip` and `validate_socket_addr` delegate to the Rust standard
library string parser (`FromStr` for `IpAddr` / `SocketAddr`, implemented
in `core::net::parser`).  The functions below are translated from that
parser: state is passed as the remaining character list, and a failing
read returns `none` without consuming input, which models the Rust
parser's `read_atomically` state restoration. -/

/-- `char::to_digit`: digit value of `c` in base `radix`, if any. -/
def toDigit (radix : Nat) (c : Char) : Option Nat :=
  let v : Option Nat :=
    if '0' ≤ c ∧ c ≤ '9' then some (c.toNat - '0'.toNat)
    else if 'a' ≤ c ∧ c ≤ 'z' then some (c.toNat - 'a'.toNat + 10)
    else if 'A' ≤ c ∧ c ≤ 'Z' then some (c.toNat - 'A'.toNat + 10)
    else none
  match v with
  | some d => if d < radix then some d else none
  | none => none

/-- The digit-consuming loop of `Parser::read_number`: consumes digits
greedily, failing (and aborting the whole read) on overflow past
`maxVal` or on more than `maxDigits` digits.  Returns the accumulated
value, the digit count and the remaining input. -/
def readNumberLoop (radix : Nat) (maxDigits : Option Nat) (maxVal : Nat) :
    List Char → Nat → Nat → Option (Nat × Nat × List Char)
  | [], result, count => some (result, count, [])
  | c :: rest, result, count =>
    match toDigit radix c with
    | none => some (result, count, c :: rest)
    | some d =>
      if maxVal < result * radix then none
      else if maxVal < result * radix + d then none
      else
        match maxDigits with
        | some m =>
          if m < count + 1 then none
          else readNumberLoop radix maxDigits maxVal rest (result * radix + d) (count + 1)
        | none => readNumberLoop radix maxDigits maxVal rest (result * radix + d) (count + 1)

/-- `Parser::read_number`: reads a number in base `radix`, rejecting an
empty digit sequence and (when `allowZeroPrefix` is false) a redundant
leading zero. -/
def read_number (radix : Nat) (maxDigits : Option Nat) (maxVal : Nat)
    (allowZeroPrefix : Bool) (s : List Char) : Option (Nat × List Char) :=
  let hasLeadingZero : Bool := match s with
    | '0' :: _ => true
    | _ => false
  match readNumberLoop radix maxDigits maxVal s 0 0 with
  | none => none
  | some (result, count, rest) =>
    if count = 0 then none
    else if !allowZeroPrefix && hasLeadingZero && decide (1 < count) then none
    else some (result, rest)

/-- `Parser::read_given_char`: consumes exactly the character `target`. -/
def read_given_char (target : Char) : List Char → Option (List Char)
  | [] => none
  | c :: rest => if c = target then some rest else none

/-- `Parser::read_ipv4_addr`: four octets of at most three digits, no
redundant leading zeros, separated by dots. -/
def read_ipv4_addr (s : List Char) : Option (Ipv4Addr × List Char) := do
  let (a, s) ← read_number 10 (some 3) 255 false s
  let s ← read_given_char '.' s
  let (b, s) ← read_number 10 (some 3) 255 false s
  let s ← read_given_char '.' s
  let (c, s) ← read_number 10 (some 3) 255 false s
  let s ← read_given_char '.' s
  let (d, s) ← read_number 10 (some 3) 255 false s
  some (⟨a, b, c, d⟩, s)

/-- `Parser::read_separator`: at group index 0 reads nothing, later
groups are preceded by a colon; the separator and the inner read fail
or succeed atomically. -/
def read_sep {α : Type} (i : Nat) (inner : List Char → Option (α × List Char))
    (s : List Char) : Option (α × List Char) :=
  if i = 0 then inner s
  else
    match read_given_char ':' s with
    | none => none
    | some s1 => inner s1

/-- The `read_groups` helper of `Parser::read_ipv6_addr`: reads up to
`rem` further 16-bit groups starting at group index `i`, accumulating
into `acc`; when at least two slots remain it first tries a trailing
embedded IPv4 address, which fills two groups and ends the read with the
flag set.  Returns the groups read, the embedded-IPv4 flag and the rest. -/
def readGroups : Nat → Nat → List Char → List Nat → (List Nat × Bool × List Char)
  | _, 0, s, acc => (acc, false, s)
  | i, rem + 1, s, acc =>
    match (if 1 ≤ rem then read_sep i read_ipv4_addr s else none) with
    | some (v4, s1) =>
      (acc ++ [v4.o0 * 256 + v4.o1, v4.o2 * 256 + v4.o3], true, s1)
    | none =>
      match read_sep i (read_number 16 (some 4) 65535 true) s with
      | none => (acc, false, s)
      | some (g, s1) => readGroups (i + 1) rem s1 (acc ++ [g])

/-- `Parser::read_ipv6_addr`: reads the head groups; if fewer than eight
and no embedded IPv4 was used, requires `::` and reads tail groups into
the remaining slots, zero-filling the gap. -/
def read_ipv6_addr (s : List Char) : Option (Ipv6Addr × List Char) :=
  match readGroups 0 8 s [] with
  | (head, headIpv4, s1) =>
    if head.length = 8 then
      match head with
      | [a, b, c, d, e, f, g, h] => some (⟨a, b, c, d, e, f, g, h⟩, s1)
      | _ => none
    else if headIpv4 then none
    else
      match read_given_char ':' s1 with
      | none => none
      | some s2 =>
        match read_given_char ':' s2 with
        | none => none
        | some s3 =>
          match readGroups 0 (8 - (head.length + 1)) s3 [] with
          | (tail, _, s4) =>
            match head ++ List.replicate (8 - head.length - tail.length) 0 ++ tail with
            | [a, b, c, d, e, f, g, h] => some (⟨a, b, c, d, e, f, g, h⟩, s4)
            | _ => none

/-- `Parser::read_port`: a colon followed by a decimal `u16`. -/
def read_port (s : List Char) : Option (Nat × List Char) :=
  match read_given_char ':' s with
  | none => none
  | some s1 => read_number 10 none 65535 true s1

/-- `Parser::read_scope_id`: a percent sign followed by a decimal `u32`. -/
def read_scope_id (s : List Char) : Option (Nat × List Char) :=
  match read_given_char '%' s with
  | none => none
  | some s1 => read_number 10 none 4294967295 true s1

/-- `std::net::SocketAddr`: an IP address with a port.  Rust stores the
IPv6 scope id inside `SocketAddrV6`; IPv4 socket addresses carry none,
modelled as scope 0. -/
structure SocketAddr where
  ip : IpAddr
  port : Nat
  scope_id : Nat
deriving DecidableEq, Repr

/-- `Parser::read_socket_addr_v4`: `ip:port`. -/
def read_socket_addr_v4 (s : List Char) : Option (SocketAddr × List Char) := do
  let (ip, s) ← read_ipv4_addr s
  let (p, s) ← read_port s
  some (⟨ .V4 ip, p, 0⟩, s)

/-- `Parser::read_socket_addr_v6`: `[ip]:port` with an optional scope id
inside the brackets. -/
def read_socket_addr_v6 (s : List Char) : Option (SocketAddr × List Char) := do
  let s ← read_given_char '[' s
  let (ip, s) ← read_ipv6_addr s
  let (scope, s) := match read_scope_id s with
    | some (id, s2) => (id, s2)
    | none => (0, s)
  let s ← read_given_char ']' s
  let (p, s) ← read_port s
  some (⟨ .V6 ip, p, scope⟩, s)

/-- `Parser::read_ip_addr`: IPv4 first, otherwise IPv6. -/
def read_ip_addr (s : List Char) : Option (IpAddr × List Char) :=
  match read_ipv4_addr s with
  | some (a, rest) => some (.V4 a, rest)
  | none =>
    match read_ipv6_addr s with
    | some (a, rest) => some (.V6 a, rest)
    | none => none

/-- `Parser::read_socket_addr`: IPv4 socket address first, otherwise
IPv6 socket address. -/
def read_socket_addr (s : List Char) : Option (SocketAddr × List Char) :=
  match read_socket_addr_v4 s with
  | some r => some r
  | none => read_socket_addr_v6 s

/-- `FromStr` for `IpAddr` via `Parser::parse_with`: the read must
consume the entire input. -/
def parse_ip_addr_string (s : String) : Option IpAddr :=
  match read_ip_addr s.data with
  | some (a, []) => some a
  | _ => none

/-- `FromStr` for `SocketAddr` via `Parser::parse_with`: the read must
consume the entire input. -/
def parse_socket_addr_string (s : String) : Option SocketAddr :=
  match read_socket_addr s.data with
  | some (a, []) => some a
  | _ => none

/-- `parse_ip` from `src/ip.rs`: wraps the standard parser, replacing a
parse failure with `InvalidIp` carrying the input string. -/
def parse_ip (s : String) : Except NetSemError IpAddr :=
  match parse_ip_addr_string s with
  | some a => Except.ok a
  | none => Except.error (NetSemError.InvalidIp s)

/-- `is_valid_ip_literal` from `src/ip.rs`: whether the standard parser
accepts the string. -/
def is_valid_ip_literal (s : String) : Bool :=
  (parse_ip_addr_string s).isSome

/-- `validate_socket_addr` from `src/socket.rs`: wraps the standard
parser, replacing a parse failure with `InvalidSocketAddr` carrying the
input string. -/
def validate_socket_addr (s : String) : Except NetSemError SocketAddr :=
  match parse_socket_addr_string s with
  | some a => Except.ok a
  | none => Except.error (NetSemError.InvalidSocketAddr s)

/-- C8: `validate_socket_addr` accepts `ip:port` for IPv4 and `[ip]:port`
for IPv6, and rejects missing brackets, missing port, and out-of-range
port digits with `InvalidSocketAddr`; in particular `127.0.0.1:8080`
parses with port 8080, `127.0.0.1` and `256.0.0.1:80` fail. -/
theorem validate_socket_addr_spec :
    validate_socket_addr ("127.0.0.1:8080") =
      Except.ok ⟨ IpAddr.V4 ⟨127, 0, 0, 1⟩, 8080, 0⟩ ∧
    validate_socket_addr ("[::1]:80") =
      Except.ok ⟨ IpAddr.V6 ⟨0, 0, 0, 0, 0, 0, 0, 1⟩, 80, 0⟩ ∧
    validate_socket_addr ("127.0.0.1") =
      Except.error (NetSemError.InvalidSocketAddr "127.0.0.1") ∧
    validate_socket_addr ("256.0.0.1:80") =
      Except.error (NetSemError.InvalidSocketAddr "256.0.0.1:80") ∧
    validate_socket_addr ("::1:80") =
      Except.error (NetSemError.InvalidSocketAddr "::1:80") ∧
    validate_socket_addr ("[::1]") =
      Except.error (NetSemError.InvalidSocketAddr "[::1]") ∧
    validate_socket_addr ("127.0.0.1:99999") =
      Except.error (NetSemError.InvalidSocketAddr "127.0.0.1:99999") :=
  ⟨rfl, rfl, rfl, rfl, rfl, rfl, rfl⟩

/-- C9: the validity predicate and the parser accept exactly the same
strings: `is_valid_ip_literal` is true iff `parse_ip` returns `Ok`. -/
theorem is_valid_ip_literal_iff_parse_ip_ok (s : String) :
    is_valid_ip_literal s = true ↔ ∃ a : IpAddr, parse_ip s = Except.ok a := by
  unfold is_valid_ip_literal parse_ip
  cases h : parse_ip_addr_string s with
  | none => simp [h]
  | some a => simp [h]

/-- C10: parse errors carry the offending input verbatim: whenever
`parse_ip` fails the error is `InvalidIp` of exactly the input string,
and whenever `validate_socket_addr` fails the error is
`InvalidSocketAddr` of exactly the input string. -/
theorem parse_errors_carry_input (s : String) :
    (∀ e : NetSemError, parse_ip s = Except.error e →
      e = NetSemError.InvalidIp s) ∧
    (∀ e : NetSemError, validate_socket_addr s = Except.error e →
      e = NetSemError.InvalidSocketAddr s) := by
  constructor
  · intro e he
    unfold parse_ip at he
    cases h : parse_ip_addr_string s with
    | none =>
      rw [h] at he
      exact (Except.error.injEq _ _ ▸ he).symm
    | some a =>
      rw [h] at he
      exact absurd he (by simp)
  · intro e he
    unfold validate_socket_addr at he
    cases h : parse_socket_addr_string s with
    | none =>
      rw [h] at he
      exact (Except.error.injEq _ _ ▸ he).symm
    | some a =>
      rw [h] at he
      exact absurd he (by simp)

/-- Witness for C10 at the failing input `invalid`. -/
theorem parse_errors_carry_input_witness :
    parse_ip ("invalid") = Except.error (NetSemError.InvalidIp "invalid") ∧
    NetSemError.InvalidIp "invalid" = NetSemError.InvalidIp "invalid" ∧
    validate_socket_addr ("invalid") =
      Except.error (NetSemError.InvalidSocketAddr "invalid") ∧
    NetSemError.InvalidSocketAddr "invalid" =
      NetSemError.InvalidSocketAddr "invalid" :=
  ⟨rfl,
   (parse_errors_carry_input ("invalid")).1 (NetSemError.InvalidIp "invalid") rfl,
   rfl,
   (parse_errors_carry_input ("invalid")).2
     (NetSemError.InvalidSocketAddr "invalid") rfl⟩

end Netsem
